import Mathlib

/-!
Verification development for the grant research assistant repository.

The embedding covers:
- the five step Streamlit workflow of grant_research_app_simple.py
  (session cursor, per step records, Previous / Reset / Next navigation),
- the seven step workflow class of grant_research_app.py
  (workflow_state dictionary, reset, the agent_results store),
- the export document assembly and the verification response
  interpretation, which the design document specifies but which no file
  under src implements; these two are modelled from the specification
  and are marked as such in their doc comments.

Python values are embedded as the inductive PyVal; Python dicts are
association lists with first-match lookup and in-place overwrite, which
matches dict assignment order semantics for the keys used here.
Wall-clock timestamp fields of the stored records are elided, as is the
thousands separator number formatting of one literal string; neither is
observable by any property below.
-/

namespace GrantResearch

/-- Embedded Python values: strings, ints, bools, rationals standing for
the numeric literals, lists, string-keyed dicts and int-keyed dicts. -/
inductive PyVal where
  | str (s : String)
  | int (n : Int)
  | bool (b : Bool)
  | num (q : Rat)
  | list (xs : List PyVal)
  | dict (entries : List (String × PyVal))
  | idict (entries : List (Int × PyVal))

/-- Lookup in a string-keyed dict, first match wins. -/
def dictGet : List (String × PyVal) → String → Option PyVal
  | [], _ => none
  | (k2, v) :: rest, k => if k2 = k then some v else dictGet rest k

/-- Assignment d[k] = v on a string-keyed dict: overwrite in place or append. -/
def dictSet : List (String × PyVal) → String → PyVal → List (String × PyVal)
  | [], k, v => [(k, v)]
  | (k2, v2) :: rest, k, v =>
    if k2 = k then (k2, v) :: rest else (k2, v2) :: dictSet rest k v

/-- Membership test k in d. -/
def hasKey (d : List (String × PyVal)) (k : String) : Bool := (dictGet d k).isSome

/-- Lookup in an int-keyed dict. -/
def idictGet : List (Int × PyVal) → Int → Option PyVal
  | [], _ => none
  | (k2, v) :: rest, k => if k2 = k then some v else idictGet rest k

/-- Assignment on an int-keyed dict. -/
def idictSet : List (Int × PyVal) → Int → PyVal → List (Int × PyVal)
  | [], k, v => [(k, v)]
  | (k2, v2) :: rest, k, v =>
    if k2 = k then (k2, v) :: rest else (k2, v2) :: idictSet rest k v

/-- Python v.get(k) for a dict value, none when absent or not a dict. -/
def pyGet (v : PyVal) (k : String) : Option PyVal :=
  match v with
  | .dict d => dictGet d k
  | _ => none

/-- Total model of Python subscripting v[k]. The fallback value stands in
for the KeyError path, which no reachable session below exercises. -/
def pyIndex (v : PyVal) (k : String) : PyVal := (pyGet v k).getD (.str "KeyError")

/-- Extract a Python string value, empty when not a string. -/
def pyStr (v : PyVal) : String :=
  match v with
  | .str s => s
  | _ => ""

/-- Extract a Python int value, zero when not an int. -/
def pyIntVal (v : PyVal) : Int :=
  match v with
  | .int n => n
  | _ => 0

mutual

/-- Human readable rendering of an embedded Python value, used by the
export assembly for the formatted content of a stored record. -/
def renderVal : PyVal → String
  | .str s => s
  | .int n => toString n
  | .bool b => if b then "True" else "False"
  | .num q => toString q
  | .list xs => "[" ++ renderList xs ++ "]"
  | .dict es => renderEntries es
  | .idict es => renderIntEntries es

/-- Rendering of a list value, comma separated. -/
def renderList : List PyVal → String
  | [] => ""
  | [v] => renderVal v
  | v :: rest => renderVal v ++ ", " ++ renderList rest

/-- Rendering of dict entries, key colon value, semicolon separated. -/
def renderEntries : List (String × PyVal) → String
  | [] => ""
  | [(k, v)] => k ++ ": " ++ renderVal v
  | (k, v) :: rest => k ++ ": " ++ renderVal v ++ "; " ++ renderEntries rest

/-- Rendering of int keyed dict entries. -/
def renderIntEntries : List (Int × PyVal) → String
  | [] => ""
  | [(k, v)] => toString k ++ ": " ++ renderVal v
  | (k, v) :: rest => toString k ++ ": " ++ renderVal v ++ "; " ++ renderIntEntries rest

end

/-! ### Character level string helpers

The Python code uses .lower(), substring membership via the in operator,
.split(",") and .strip(). These are embedded over the underlying
character lists so that every helper is executable by kernel reduction.
The inputs in scope are plain ASCII, where the embeddings agree with the
Python semantics. -/

/-- ASCII lower casing of one character, as Python lower() acts on the
characters appearing in this code base. -/
def charLower (c : Char) : Char :=
  if 'A' ≤ c ∧ c ≤ 'Z' then Char.ofNat (c.toNat + 32) else c

/-- Python s.lower(). -/
def lowerStr (s : String) : String := String.mk (s.data.map charLower)

/-- True when pat occurs as a contiguous run inside the character list. -/
def containsChars (pat : List Char) : List Char → Bool
  | [] => pat.isEmpty
  | c :: rest => List.isPrefixOf pat (c :: rest) || containsChars pat rest

/-- Python membership test pat in s on strings. -/
def strContains (s pat : String) : Bool := containsChars pat.data s.data

/-- Whitespace recognised by Python strip() for the inputs in scope. -/
def isSpaceChar (c : Char) : Bool := c == ' ' || c == '\t' || c == '\n' || c == '\r'

/-- Python s.strip() on a character list. -/
def trimChars (cs : List Char) : List Char :=
  ((cs.dropWhile isSpaceChar).reverse.dropWhile isSpaceChar).reverse

/-- Split a character list at every occurrence of sep. -/
def splitChars (sep : Char) : List Char → List (List Char)
  | [] => [[]]
  | c :: rest =>
    let r := splitChars sep rest
    if c == sep then [] :: r
    else
      match r with
      | [] => [[c]]
      | piece :: more => (c :: piece) :: more

/-- The keyword parsing of the research profile form, from
grant_research_app_simple.py line 191: split on commas, strip each
piece, keep the non-empty pieces. -/
def parseKeywords (ks : String) : List String :=
  ((splitChars ',' ks.data).map (fun cs => String.mk (trimChars cs))).filter
    (fun k => !(k == ""))

/-! ### The five step app: grant_research_app_simple.py -/

/-- One entry of the STEPS table (lines 47-73); the emoji prefixes of the
titles are kept out of the embedding. -/
structure StepInfo where
  title : String
  subtitle : String
  description : String

/-- The STEPS table of the five step app (lines 47-73). -/
def STEPS : List StepInfo :=
  [ ⟨"Organization Verification", "Verify your organization is located in Canada",
     "We will validate your organization details and confirm it is eligible for Canadian grants."⟩,
    ⟨"Research Profile", "Create JSON profile for grant matching",
     "Define your research areas, needs, and preferences in a structured format."⟩,
    ⟨"Grant Search", "Find relevant Canadian grants using Vertex search",
     "Search through Canadian grant databases for opportunities matching your profile."⟩,
    ⟨"Human Selection", "Review and select grants to pursue",
     "Examine found grants and choose which ones to focus on for applications."⟩,
    ⟨"Application Generation", "Generate grant application materials",
     "Create tailored application drafts for your selected grants."⟩ ]

/-- The ambient Streamlit session state of the five step app: the cursor
st.session_state.current_step and the record store
st.session_state.workflow_data (lines 41-44). -/
structure SimpleSession where
  current_step : Nat
  workflow_data : List (String × PyVal)

/-- Initial session state (lines 41-44): cursor 1, empty record store. -/
def simpleInit : SimpleSession := ⟨1, []⟩

/-- The organization form of step 1 (lines 90-113). -/
structure OrgForm where
  org_name : String
  org_type : String
  org_location : String
  research_areas : List String
deriving DecidableEq

/-- The province keyword list of the location check (line 121). -/
def provinceKeywords : List String :=
  ["ontario", "quebec", "bc", "alberta", "manitoba", "saskatchewan", "nova scotia",
   "new brunswick", "pei", "newfoundland", "yukon", "nwt", "nunavut"]

/-- The Canada location check of step 1 (line 121): the lower cased
location must contain the word canada or one of the province keywords. -/
def canadaCheck (location : String) : Bool :=
  strContains (lowerStr location) "canada" ||
    provinceKeywords.any (fun p => strContains (lowerStr location) p)

/-- Python truthiness guard of the form submit (line 117): the three
required text fields must be non-empty. -/
def requiredFieldsPresent (f : OrgForm) : Bool :=
  !(f.org_name == "") && !(f.org_type == "") && !(f.org_location == "")

/-- The organization record stored on successful verification
(lines 125-132); the timestamp field is elided. -/
def orgRecord (f : OrgForm) : PyVal :=
  .dict [ ("name", .str f.org_name), ("type", .str f.org_type),
          ("location", .str f.org_location),
          ("research_areas", .list (f.research_areas.map .str)),
          ("canada_verified", .bool true) ]

/-- Outcome of a step 1 form submission: stored successfully, rejected by
the Canada check with an error message, or silently ignored because a
required field was empty (the code shows nothing in that case). -/
inductive SubmitOutcome where
  | success
  | canadaError
  | ignored
deriving DecidableEq

/-- The step 1 form submit handler (lines 115-144): when all required
fields are non-empty and the location passes the Canada check, the
organization record is stored; when the check fails an error is shown
and nothing is stored; when a required field is empty nothing happens. -/
def submitOrgStep (s : SimpleSession) (f : OrgForm) : SubmitOutcome × SimpleSession :=
  if requiredFieldsPresent f = true then
    if canadaCheck f.org_location = true then
      (.success, { s with workflow_data := dictSet s.workflow_data "organization" (orgRecord f) })
    else (.canadaError, s)
  else (.ignored, s)

/-- The research profile form of step 2 (lines 155-181). -/
structure ProfileForm where
  project_title : String
  project_description : String
  funding_min : Int
  funding_max : Int
  career_stage : String
  duration : String
  keywords : String
deriving DecidableEq

/-- The profile record generated on step 2 submit (lines 186-205);
the generated timestamp is elided. -/
def profileRecord (org_data : PyVal) (f : ProfileForm) : PyVal :=
  .dict [ ("organization", org_data),
          ("project", .dict
            [ ("title", .str f.project_title),
              ("description", .str f.project_description),
              ("keywords", .list ((parseKeywords f.keywords).map .str)),
              ("duration", .str f.duration),
              ("career_stage", .str f.career_stage) ]),
          ("funding", .dict
            [ ("minimum", .int f.funding_min),
              ("maximum", .int f.funding_max),
              ("currency", .str "CAD") ]),
          ("eligibility", .dict
            [ ("canada_only", .bool true),
              ("research_areas", (pyGet org_data "research_areas").getD (.list [])) ]) ]

/-- First mock grant of the step 3 search (lines 231-239). -/
def cihrGrant : PyVal :=
  .dict [ ("title", .str "CIHR Project Grant"),
          ("agency", .str "Canadian Institutes of Health Research"),
          ("amount", .str "$100,000 - $1,000,000"),
          ("deadline", .str "2025-03-15"),
          ("match_score", .num 0.92),
          ("description", .str "Supports health research projects across all areas of health research") ]

/-- Second mock grant of the step 3 search (lines 240-247). -/
def nsercGrant : PyVal :=
  .dict [ ("title", .str "NSERC Discovery Grant"),
          ("agency", .str "Natural Sciences and Engineering Research Council"),
          ("amount", .str "$25,000 - $500,000"),
          ("deadline", .str "2025-02-01"),
          ("match_score", .num 0.88),
          ("description", .str "Funds ongoing programs of research with long-term goals") ]

/-- Third mock grant of the step 3 search (lines 248-255). -/
def sshrcGrant : PyVal :=
  .dict [ ("title", .str "SSHRC Insight Grant"),
          ("agency", .str "Social Sciences and Humanities Research Council"),
          ("amount", .str "$7,000 - $400,000"),
          ("deadline", .str "2025-02-15"),
          ("match_score", .num 0.75),
          ("description", .str "Supports research in social sciences and humanities") ]

/-- The mock search result list stored by step 3 (lines 231-258). -/
def mockGrants : PyVal := .list [cihrGrant, nsercGrant, sshrcGrant]

/-- The application draft stored by step 5 (lines 322-335); the generated
timestamp is elided and the thousands separator formatting of the budget
line is rendered as a plain decimal. -/
def applicationRecord (grant profile : PyVal) : PyVal :=
  .dict [ ("grant", pyIndex grant "title"),
          ("agency", pyIndex grant "agency"),
          ("project_title", pyIndex (pyIndex profile "project") "title"),
          ("sections", .dict
            [ ("project_summary", .str ("Summary for " ++ pyStr (pyIndex (pyIndex profile "project") "title") ++ "...")),
              ("objectives", .str "1. Primary objective...\n2. Secondary objective..."),
              ("methodology", .str "Detailed methodology based on project description..."),
              ("timeline", .str "Year 1: ...\nYear 2: ..."),
              ("budget", .str ("Total requested: " ++ toString (pyIntVal (pyIndex (pyIndex profile "funding") "minimum")) ++ " CAD")),
              ("team", .str "Principal Investigator and team details...") ]) ]

/-- The can_proceed chain guarding the Next Step button (lines 400-408):
each of the first four steps names the record its completion stores. -/
def canProceed (s : SimpleSession) : Bool :=
  (s.current_step == 1 && hasKey s.workflow_data "organization") ||
  (s.current_step == 2 && hasKey s.workflow_data "profile") ||
  (s.current_step == 3 && hasKey s.workflow_data "found_grants") ||
  (s.current_step == 4 && hasKey s.workflow_data "selected_grants")

/-- Failure mode of a blocked forward navigation. -/
inductive NavError where
  | outOfSequence
deriving DecidableEq

/-- The Next Step transition (lines 410-413): offered exactly when
can_proceed holds and the cursor is below 5; pressing it increments the
cursor. A state where the button is not offered is reported as the
out-of-sequence failure with the state unchanged. -/
def advance (s : SimpleSession) : Except NavError SimpleSession :=
  if canProceed s = true ∧ s.current_step < 5 then
    .ok { s with current_step := s.current_step + 1 }
  else .error .outOfSequence

/-- User actions of the five step app that touch the session state. Each
in-step button carries the enabling condition under which the UI renders
it (the surrounding branch of the script). -/
inductive Op where
  | submitOrg (f : OrgForm)
  | proceedStep1
  | submitProfile (f : ProfileForm)
  | proceedStep2
  | searchGrants
  | proceedStep3
  | proceedStep4 (sel : List PyVal)
  | generateApplication
  | startNewWorkflow
  | prevStep
  | resetWorkflow
  | nextStep

/-- One state transition of the five step app. Line references give the
button or form handler embedded by each branch. -/
def applyOp (op : Op) (s : SimpleSession) : SimpleSession :=
  match op with
  | .submitOrg f =>
      -- lines 86-144: the form is rendered at step 1 only
      if s.current_step = 1 then (submitOrgStep s f).2 else s
  | .proceedStep1 =>
      -- line 140-142: rendered inside the successful verification branch
      if s.current_step = 1 ∧ hasKey s.workflow_data "organization" = true then
        { s with current_step := 2 }
      else s
  | .submitProfile f =>
      -- lines 184-207: guarded by non-empty title and description
      if s.current_step = 2 ∧ f.project_title ≠ "" ∧ f.project_description ≠ "" then
        let org_data := (dictGet s.workflow_data "organization").getD (.dict [])
        { s with workflow_data := dictSet s.workflow_data "profile" (profileRecord org_data f) }
      else s
  | .proceedStep2 =>
      -- lines 212-214: rendered after the profile was stored
      if s.current_step = 2 ∧ hasKey s.workflow_data "profile" = true then
        { s with current_step := 3 }
      else s
  | .searchGrants =>
      -- lines 228-258: the search button stores the mock results
      if s.current_step = 3 then
        { s with workflow_data := dictSet s.workflow_data "found_grants" mockGrants }
      else s
  | .proceedStep3 =>
      -- lines 273-275: rendered after the search stored its results
      if s.current_step = 3 ∧ hasKey s.workflow_data "found_grants" = true then
        { s with current_step := 4 }
      else s
  | .proceedStep4 sel =>
      -- lines 283-299: rendered when grants were found and a non-empty
      -- selection was made; stores the selection and moves to step 5
      if s.current_step = 4 ∧ hasKey s.workflow_data "found_grants" = true ∧ sel.isEmpty = false then
        { current_step := 5, workflow_data := dictSet s.workflow_data "selected_grants" (.list sel) }
      else s
  | .generateApplication =>
      -- lines 312-337: rendered when the selection is non-empty; stores
      -- the application draft built from the first selectable grant
      match dictGet s.workflow_data "selected_grants" with
      | some (.list (g :: _)) =>
          if s.current_step = 5 then
            let profile := (dictGet s.workflow_data "profile").getD (.dict [])
            { s with workflow_data := dictSet s.workflow_data "application" (applicationRecord g profile) }
          else s
      | _ => s
  | .startNewWorkflow =>
      -- lines 375-377: rendered on step 5, returns to a fresh state
      if s.current_step = 5 then ⟨1, []⟩ else s
  | .prevStep =>
      -- lines 386-390: rendered when the cursor is above 1
      if 1 < s.current_step then { s with current_step := s.current_step - 1 } else s
  | .resetWorkflow =>
      -- lines 392-396: always rendered
      ⟨1, []⟩
  | .nextStep =>
      -- lines 398-413
      if canProceed s = true ∧ s.current_step < 5 then
        { s with current_step := s.current_step + 1 }
      else s

/-- Run a sequence of user actions from the initial session state. -/
def runOps (ops : List Op) : SimpleSession :=
  ops.foldl (fun s op => applyOp op s) simpleInit

/-- The record key each step stores on completion: steps 1 to 4 as named
in the can_proceed chain (lines 400-408), step 5 as stored by the
application generation handler (line 337). -/
def stepKey : Nat → Option String
  | 1 => some "organization"
  | 2 => some "profile"
  | 3 => some "found_grants"
  | 4 => some "selected_grants"
  | 5 => some "application"
  | _ => none

/-- The record of the current step is present in the store. -/
def currentRecordPresent (s : SimpleSession) : Bool :=
  match stepKey s.current_step with
  | some k => hasKey s.workflow_data k
  | none => false

/-- Inductive invariant of the five step app: the cursor stays within the
step range and every step strictly behind the cursor has stored its
record. -/
def Inv (s : SimpleSession) : Prop :=
  1 ≤ s.current_step ∧ s.current_step ≤ 5 ∧
  (2 ≤ s.current_step → hasKey s.workflow_data "organization" = true) ∧
  (3 ≤ s.current_step → hasKey s.workflow_data "profile" = true) ∧
  (4 ≤ s.current_step → hasKey s.workflow_data "found_grants" = true) ∧
  (5 ≤ s.current_step → hasKey s.workflow_data "selected_grants" = true)

/-! ### The seven step app: grant_research_app.py -/

/-- One entry of the workflow step table (lines 149-192); the agent
handles are external ADK objects and are embedded by the flag that says
whether an agent is attached in ADK mode. -/
structure WorkflowStepDef where
  name : String
  description : String
  has_agent : Bool
  human_input_required : Bool

/-- GrantResearchWorkflow.workflow_steps (lines 149-192): seven steps. -/
def workflow_steps : List WorkflowStepDef :=
  [ ⟨"Organization Verification", "Verify and validate organization details for grant eligibility", true, true⟩,
    ⟨"Research Context Setup", "Define research areas, funding needs, and preferences", false, true⟩,
    ⟨"Grant Discovery", "Search for relevant funding opportunities", true, true⟩,
    ⟨"Eligibility Assessment", "Check qualification requirements for selected grants", true, true⟩,
    ⟨"Proposal Analysis", "Analyze proposal requirements and create templates", true, true⟩,
    ⟨"Timeline Planning", "Create application timeline and deadline management", true, true⟩,
    ⟨"Final Review", "Review complete grant research strategy", true, true⟩ ]

/-- GrantResearchWorkflow.workflow_state as built by the constructor
(lines 136-147). -/
def initWorkflowState : List (String × PyVal) :=
  [ ("current_step", .int 0),
    ("steps_completed", .list []),
    ("grant_search_results", .list []),
    ("eligibility_results", .list []),
    ("proposal_analysis", .dict []),
    ("timeline_plan", .dict []),
    ("human_approvals", .idict []),
    ("research_context", .dict []) ]

/-- The store performed by the Verify Organization handler (line 588):
workflow_state of agent_results indexed at current_step is assigned.
The outer subscript is a plain dict lookup, so a missing agent_results
key is a KeyError, which the none result stands for. -/
def storeAgentResult (ws : List (String × PyVal)) (step : Int) (result : PyVal) :
    Option (List (String × PyVal)) :=
  match dictGet ws "agent_results" with
  | some (.idict d) => some (dictSet ws "agent_results" (.idict (idictSet d step result)))
  | _ => none

/-- The completion test of the seven step app (line 480): the workflow is
complete when the zero based cursor has reached the step count, at which
point the download of the complete report is offered (lines 480-522). -/
def fullCompleted (current_step : Nat) : Bool := decide (workflow_steps.length ≤ current_step)

/-! ### Export document assembly -/

/-- Modelled from the spec: the plain text export assembly named
exportDocument in sections 3 and 6 of the design document is not
implemented by any file under src (the two included app variants export
raw JSON dumps instead; the design document references further app
variants that are not part of src). The fixed section order, the MISSING
marker, the Missing Sections summary and its labels follow the words and
the scenario of the specification. One line of the report for the given
step record store. -/
def sectionLine (recs : List (String × PyVal)) (idx : Nat) (key title : String) : String :=
  "[" ++ toString idx ++ "] " ++ title ++ ": " ++
    (match dictGet recs key with
     | some v => renderVal v
     | none => "MISSING")

/-- Modelled from the spec: the labels of the absent core sections, in
the fixed section order, as spelled by the export scenario of the
specification. -/
def missingLabels (recs : List (String × PyVal)) : List String :=
  (if hasKey recs "organization" then [] else ["Organization verification"]) ++
  (if hasKey recs "grant_info" then [] else ["Grant info"]) ++
  (if hasKey recs "eligibility" then [] else ["Eligibility assessment"]) ++
  (if hasKey recs "project" then [] else ["Project description"])

/-- Join a list of strings with a separator. -/
def joinWith (sep : String) : List String → String
  | [] => ""
  | [x] => x
  | x :: rest => x ++ sep ++ joinWith sep rest

/-- Modelled from the spec: the trailing gap summary line, replaced by
the completion message exactly when no core section is missing. -/
def summaryLine (recs : List (String × PyVal)) : String :=
  if (missingLabels recs).isEmpty then "All core sections completed."
  else "Missing Sections: " ++ joinWith ", " (missingLabels recs)

/-- Modelled from the spec: exportDocument, a pure projection of the step
record store into the fixed four section report plus the summary line. -/
def exportDocument (recs : List (String × PyVal)) : List String :=
  [ sectionLine recs 1 "organization" "Organization Verification",
    sectionLine recs 2 "grant_info" "Grant Information",
    sectionLine recs 3 "eligibility" "Eligibility Assessment",
    sectionLine recs 4 "project" "Project Description",
    summaryLine recs ]

/-! ### Verification response interpretation -/

/-- Confidence levels of a verification verdict, from the specification. -/
inductive Confidence where
  | high
  | medium
  | low
deriving DecidableEq

/-- Result record of the verification response interpretation. -/
structure VerificationVerdict where
  verified : Bool
  confidence : Confidence
  reason : String
deriving DecidableEq

/-- The recognised response markers with their verdicts. The marker
phrases are the VERIFICATION STATUS lines that the organization search
agent instruction fixes as the only allowed response headers
(src/grant_research_agent/tools/organization_search.py, lines 115-197). -/
def recognizedMarkers : List (String × Bool × Confidence) :=
  [ ("VERIFICATION STATUS: PASSED - ORGANIZATION CONFIRMED IN CANADA", true, .high),
    ("VERIFICATION STATUS: FAILED - ORGANIZATION/LOCATION MISMATCH", false, .high),
    ("VERIFICATION STATUS: FAILED - ORGANIZATION NOT IN CANADA", false, .high),
    ("VERIFICATION STATUS: INCONCLUSIVE - MANUAL VERIFICATION REQUIRED", false, .low) ]

/-- Modelled from the spec: interpretVerificationResponse, specified in
section 6 of the design document but implemented by no file under src
(the repository fixes the marker phrases in the agent instruction and
leaves their interpretation to the caller). The backend response text is
matched against the recognised markers; when none occurs the fail-closed
default of the specification applies. -/
def interpretVerificationResponse (text : String) : VerificationVerdict :=
  match recognizedMarkers.find? (fun m => strContains text m.1) with
  | some m => ⟨m.2.1, m.2.2, m.1⟩
  | none => ⟨false, .high, "no recognized verification marker"⟩

/-! ### Dictionary lemmas -/

theorem dictGet_dictSet (d : List (String × PyVal)) (k k2 : String) (v : PyVal) :
    dictGet (dictSet d k v) k2 = if k = k2 then some v else dictGet d k2 := by
  induction d with
  | nil => simp [dictSet, dictGet]
  | cons a rest ih =>
      obtain ⟨ka, va⟩ := a
      by_cases h1 : ka = k
      · subst h1
        by_cases h2 : ka = k2 <;> simp [dictSet, dictGet, h2]
      · by_cases h2 : ka = k2
        · subst h2
          have hk : ¬ k = ka := fun he => h1 he.symm
          simp [dictSet, dictGet, h1, hk]
        · simp [dictSet, dictGet, h1, h2, ih]

theorem hasKey_dictSet (d : List (String × PyVal)) (k k2 : String) (v : PyVal) :
    hasKey (dictSet d k v) k2 = true ↔ (k = k2 ∨ hasKey d k2 = true) := by
  simp only [hasKey, dictGet_dictSet]
  split_ifs with h <;> simp [h]

theorem hasKey_dictSet_mono {d : List (String × PyVal)} {k2 : String} (k : String) (v : PyVal)
    (h : hasKey d k2 = true) : hasKey (dictSet d k v) k2 = true :=
  (hasKey_dictSet d k k2 v).mpr (Or.inr h)

theorem hasKey_dictSet_self (d : List (String × PyVal)) (k : String) (v : PyVal) :
    hasKey (dictSet d k v) k = true :=
  (hasKey_dictSet d k k v).mpr (Or.inl rfl)

/-! ### Invariant machinery for the five step app -/

theorem Inv_mk (c : Nat) (d : List (String × PyVal))
    (hlo : 1 ≤ c) (hhi : c ≤ 5)
    (ho : 2 ≤ c → hasKey d "organization" = true)
    (hp : 3 ≤ c → hasKey d "profile" = true)
    (hf : 4 ≤ c → hasKey d "found_grants" = true)
    (hs : 5 ≤ c → hasKey d "selected_grants" = true) : Inv ⟨c, d⟩ :=
  ⟨hlo, hhi, ho, hp, hf, hs⟩

theorem canProceed_spec (c : Nat) (d : List (String × PyVal))
    (h : canProceed ⟨c, d⟩ = true) :
    (c = 1 ∧ hasKey d "organization" = true) ∨ (c = 2 ∧ hasKey d "profile" = true) ∨
    (c = 3 ∧ hasKey d "found_grants" = true) ∨ (c = 4 ∧ hasKey d "selected_grants" = true) := by
  simp only [canProceed, Bool.or_eq_true, Bool.and_eq_true, beq_iff_eq] at h
  tauto

theorem Inv_applyOp (op : Op) (s : SimpleSession) (h : Inv s) : Inv (applyOp op s) := by
  obtain ⟨c, d⟩ := s
  obtain ⟨hlo, hhi, horg, hprof, hfound, hsel⟩ := h
  have hlo : 1 ≤ c := hlo
  have hhi : c ≤ 5 := hhi
  have horg : 2 ≤ c → hasKey d "organization" = true := horg
  have hprof : 3 ≤ c → hasKey d "profile" = true := hprof
  have hfound : 4 ≤ c → hasKey d "found_grants" = true := hfound
  have hsel : 5 ≤ c → hasKey d "selected_grants" = true := hsel
  cases op with
  | submitOrg f =>
      dsimp only [applyOp, submitOrgStep]
      split_ifs with e1 e2 e3
      · exact Inv_mk c (dictSet d "organization" (orgRecord f)) hlo hhi
          (fun hh => hasKey_dictSet_self d "organization" (orgRecord f))
          (fun hh => hasKey_dictSet_mono _ _ (hprof hh))
          (fun hh => hasKey_dictSet_mono _ _ (hfound hh))
          (fun hh => hasKey_dictSet_mono _ _ (hsel hh))
      · exact Inv_mk c d hlo hhi horg hprof hfound hsel
      · exact Inv_mk c d hlo hhi horg hprof hfound hsel
      · exact Inv_mk c d hlo hhi horg hprof hfound hsel
  | proceedStep1 =>
      dsimp only [applyOp]
      split_ifs with e
      · exact Inv_mk 2 d (by omega) (by omega)
          (fun _ => e.2)
          (fun hh => absurd hh (by omega))
          (fun hh => absurd hh (by omega))
          (fun hh => absurd hh (by omega))
      · exact Inv_mk c d hlo hhi horg hprof hfound hsel
  | submitProfile f =>
      dsimp only [applyOp]
      split_ifs with e
      · exact Inv_mk c (dictSet d "profile" _) hlo hhi
          (fun hh => hasKey_dictSet_mono _ _ (horg hh))
          (fun hh => hasKey_dictSet_self d "profile" _)
          (fun hh => hasKey_dictSet_mono _ _ (hfound hh))
          (fun hh => hasKey_dictSet_mono _ _ (hsel hh))
      · exact Inv_mk c d hlo hhi horg hprof hfound hsel
  | proceedStep2 =>
      dsimp only [applyOp]
      split_ifs with e
      · exact Inv_mk 3 d (by omega) (by omega)
          (fun _ => horg (by omega))
          (fun _ => e.2)
          (fun hh => absurd hh (by omega))
          (fun hh => absurd hh (by omega))
      · exact Inv_mk c d hlo hhi horg hprof hfound hsel
  | searchGrants =>
      dsimp only [applyOp]
      split_ifs with e
      · exact Inv_mk c (dictSet d "found_grants" mockGrants) hlo hhi
          (fun hh => hasKey_dictSet_mono _ _ (horg hh))
          (fun hh => hasKey_dictSet_mono _ _ (hprof hh))
          (fun hh => hasKey_dictSet_self d "found_grants" mockGrants)
          (fun hh => hasKey_dictSet_mono _ _ (hsel hh))
      · exact Inv_mk c d hlo hhi horg hprof hfound hsel
  | proceedStep3 =>
      dsimp only [applyOp]
      split_ifs with e
      · exact Inv_mk 4 d (by omega) (by omega)
          (fun _ => horg (by omega))
          (fun _ => hprof (by omega))
          (fun _ => e.2)
          (fun hh => absurd hh (by omega))
      · exact Inv_mk c d hlo hhi horg hprof hfound hsel
  | proceedStep4 sel =>
      dsimp only [applyOp]
      split_ifs with e
      · exact Inv_mk 5 (dictSet d "selected_grants" (.list sel)) (by omega) (by omega)
          (fun _ => hasKey_dictSet_mono _ _ (horg (by omega)))
          (fun _ => hasKey_dictSet_mono _ _ (hprof (by omega)))
          (fun _ => hasKey_dictSet_mono _ _ (e.2.1))
          (fun _ => hasKey_dictSet_self d "selected_grants" (.list sel))
      · exact Inv_mk c d hlo hhi horg hprof hfound hsel
  | generateApplication =>
      dsimp only [applyOp]
      cases hg : dictGet d "selected_grants" with
      | none => exact Inv_mk c d hlo hhi horg hprof hfound hsel
      | some v =>
          cases v with
          | list xs =>
              cases xs with
              | nil => exact Inv_mk c d hlo hhi horg hprof hfound hsel
              | cons g gs =>
                  split_ifs with e
                  · exact Inv_mk c (dictSet d "application" _) hlo hhi
                      (fun hh => hasKey_dictSet_mono _ _ (horg hh))
                      (fun hh => hasKey_dictSet_mono _ _ (hprof hh))
                      (fun hh => hasKey_dictSet_mono _ _ (hfound hh))
                      (fun hh => hasKey_dictSet_mono _ _ (hsel hh))
                  · exact Inv_mk c d hlo hhi horg hprof hfound hsel
          | str a => exact Inv_mk c d hlo hhi horg hprof hfound hsel
          | int a => exact Inv_mk c d hlo hhi horg hprof hfound hsel
          | bool a => exact Inv_mk c d hlo hhi horg hprof hfound hsel
          | num a => exact Inv_mk c d hlo hhi horg hprof hfound hsel
          | dict a => exact Inv_mk c d hlo hhi horg hprof hfound hsel
          | idict a => exact Inv_mk c d hlo hhi horg hprof hfound hsel
  | startNewWorkflow =>
      dsimp only [applyOp]
      split_ifs with e
      · exact Inv_mk 1 [] (by omega) (by omega)
          (fun hh => absurd hh (by omega)) (fun hh => absurd hh (by omega))
          (fun hh => absurd hh (by omega)) (fun hh => absurd hh (by omega))
      · exact Inv_mk c d hlo hhi horg hprof hfound hsel
  | prevStep =>
      dsimp only [applyOp]
      split_ifs with e
      · exact Inv_mk (c - 1) d (by omega) (by omega)
          (fun hh => horg (by omega))
          (fun hh => hprof (by omega))
          (fun hh => hfound (by omega))
          (fun hh => hsel (by omega))
      · exact Inv_mk c d hlo hhi horg hprof hfound hsel
  | resetWorkflow =>
      dsimp only [applyOp]
      exact Inv_mk 1 [] (by omega) (by omega)
        (fun hh => absurd hh (by omega)) (fun hh => absurd hh (by omega))
        (fun hh => absurd hh (by omega)) (fun hh => absurd hh (by omega))
  | nextStep =>
      dsimp only [applyOp]
      split_ifs with e
      · rcases canProceed_spec c d e.1 with h4 | h4 | h4 | h4 <;>
          obtain ⟨hc, hk⟩ := h4 <;> subst hc
        · exact Inv_mk 2 d (by omega) (by omega)
            (fun _ => hk)
            (fun hh => absurd hh (by omega))
            (fun hh => absurd hh (by omega))
            (fun hh => absurd hh (by omega))
        · exact Inv_mk 3 d (by omega) (by omega)
            (fun _ => horg (by omega))
            (fun _ => hk)
            (fun hh => absurd hh (by omega))
            (fun hh => absurd hh (by omega))
        · exact Inv_mk 4 d (by omega) (by omega)
            (fun _ => horg (by omega))
            (fun _ => hprof (by omega))
            (fun _ => hk)
            (fun hh => absurd hh (by omega))
        · exact Inv_mk 5 d (by omega) (by omega)
            (fun _ => horg (by omega))
            (fun _ => hprof (by omega))
            (fun _ => hfound (by omega))
            (fun _ => hk)
      · exact Inv_mk c d hlo hhi horg hprof hfound hsel

theorem Inv_init : Inv simpleInit :=
  ⟨Nat.le_refl 1, (by decide : (1:Nat) ≤ 5),
   fun hh => absurd hh (by decide), fun hh => absurd hh (by decide),
   fun hh => absurd hh (by decide), fun hh => absurd hh (by decide)⟩

theorem foldl_inv : ∀ (ops : List Op) (s : SimpleSession), Inv s →
    Inv (ops.foldl (fun t op => applyOp op t) s)
  | [], _, h => h
  | op :: rest, s, h => foldl_inv rest _ (Inv_applyOp op s h)

theorem runOps_inv (ops : List Op) : Inv (runOps ops) :=
  foldl_inv ops simpleInit Inv_init

theorem advance_cond_iff (c : Nat) (d : List (String × PyVal)) :
    (canProceed ⟨c, d⟩ = true ∧ c < 5) ↔ (currentRecordPresent ⟨c, d⟩ = true ∧ c < 5) := by
  by_cases h5 : c < 5
  · interval_cases c <;> simp [canProceed, currentRecordPresent, stepKey]
  · simp [h5]

theorem roundtrip_of_inv (s : SimpleSession) (hI : Inv s) (h : 1 < s.current_step) :
    applyOp Op.nextStep (applyOp Op.prevStep s) = s := by
  obtain ⟨c, d⟩ := s
  obtain ⟨hlo, hhi, horg, hprof, hfound, hsel⟩ := hI
  have hhi : c ≤ 5 := hhi
  have horg : 2 ≤ c → hasKey d "organization" = true := horg
  have hprof : 3 ≤ c → hasKey d "profile" = true := hprof
  have hfound : 4 ≤ c → hasKey d "found_grants" = true := hfound
  have hsel : 5 ≤ c → hasKey d "selected_grants" = true := hsel
  have h : 1 < c := h
  interval_cases c
  · have hk := horg (by omega)
    simp [applyOp, canProceed, hk]
  · have hk := hprof (by omega)
    simp [applyOp, canProceed, hk]
  · have hk := hfound (by omega)
    simp [applyOp, canProceed, hk]
  · have hk := hsel (by omega)
    simp [applyOp, canProceed, hk]

/-! ### Demo data used by witnesses and counterexamples -/

/-- The organization form of the specification scenario. -/
def demoOrgForm : OrgForm :=
  ⟨"University of Toronto", "University", "Toronto, Ontario", ["Health Sciences"]⟩

/-- A filled research profile form. -/
def demoProfileForm : ProfileForm :=
  ⟨"AI for Health", "Machine learning for clinical decision support.",
   50000, 500000, "Early Career", "2 years", "artificial intelligence, machine learning"⟩

/-- A complete pass through all five steps of the simple app, ending at
step 5 with every step record stored, including the application record
of step 5. -/
def fullRunOps : List Op :=
  [ .submitOrg demoOrgForm, .proceedStep1, .submitProfile demoProfileForm, .proceedStep2,
    .searchGrants, .proceedStep3, .proceedStep4 [cihrGrant], .generateApplication ]

/-- A short run reaching step 2 with the organization record stored. -/
def roundtripOps : List Op := [Op.submitOrg demoOrgForm, Op.proceedStep1]

/-- An organization form with all required fields non-empty whose
location is outside Canada. -/
def nonCanadaForm : OrgForm := ⟨"MIT", "University", "Boston, Massachusetts", []⟩

/-! ### Claim theorems -/

/-- C1 counterexample: a session at the final step whose own record (the
application draft stored by step 5) is present, yet the Next Step
transition is refused and the state is unchanged. The claimed
equivalence of advance success with presence of the current step record
therefore fails at this reachable state. -/
theorem advance_iff_record_cex :
    currentRecordPresent (runOps fullRunOps) = true
  ∧ (runOps fullRunOps).current_step = 5
  ∧ advance (runOps fullRunOps) = .error .outOfSequence
  ∧ applyOp .nextStep (runOps fullRunOps) = runOps fullRunOps :=
  ⟨rfl, rfl, rfl, rfl⟩

/-- C1 (amended): the Next Step transition succeeds exactly when the
record of the current step is present AND the cursor is below the last
step 5; it then increments the cursor by 1. In every other state the
transition is refused as out of sequence and the session is unchanged. -/
theorem advance_characterization (s : SimpleSession) :
    advance s = (if currentRecordPresent s = true ∧ s.current_step < 5
                 then Except.ok { s with current_step := s.current_step + 1 }
                 else Except.error NavError.outOfSequence)
  ∧ applyOp Op.nextStep s = (match advance s with
                             | Except.ok t => t
                             | Except.error _ => s) := by
  obtain ⟨c, d⟩ := s
  constructor
  · dsimp only [advance]
    rw [if_congr (advance_cond_iff c d) rfl rfl]
  · dsimp only [applyOp, advance]
    split_ifs <;> rfl

/-- C2: the cursor starts at 1 and, along every sequence of user actions
from the initial state, stays within the closed interval from 1 to 6
(it in fact never exceeds 5). -/
theorem cursor_bounds :
    simpleInit.current_step = 1 ∧
    ∀ ops : List Op, 1 ≤ (runOps ops).current_step ∧ (runOps ops).current_step ≤ 6 :=
  ⟨rfl, fun ops => ⟨(runOps_inv ops).1, Nat.le_trans (runOps_inv ops).2.1 (by decide)⟩⟩

/-- C3: resetting yields cursor 1 and an empty record store from every
session state of the five step app; the reset of the seven step app
rebuilds the constructor state, whose cursor is the zero based 0 (the
first step) with empty completion, approval and context stores. -/
theorem reset_clears_state (s : SimpleSession) :
    applyOp Op.resetWorkflow s = { current_step := 1, workflow_data := [] } ∧
    dictGet initWorkflowState "current_step" = some (PyVal.int 0) ∧
    dictGet initWorkflowState "steps_completed" = some (PyVal.list []) ∧
    dictGet initWorkflowState "research_context" = some (PyVal.dict []) ∧
    dictGet initWorkflowState "human_approvals" = some (PyVal.idict []) :=
  ⟨rfl, rfl, rfl, rfl, rfl⟩

/-- C4: on a store holding only the organization record, the export
produces the four sections in fixed order with section 1 filled and
sections 2, 3 and 4 marked MISSING, ending with the gap summary line of
the scenario; and in general the final line is the completion message
exactly when all four core records are present. -/
theorem export_missing_sections (v : PyVal) :
    exportDocument [("organization", v)] =
      [ "[1] Organization Verification: " ++ renderVal v,
        "[2] Grant Information: MISSING",
        "[3] Eligibility Assessment: MISSING",
        "[4] Project Description: MISSING",
        "Missing Sections: Grant info, Eligibility assessment, Project description" ]
  ∧ ∀ recs : List (String × PyVal),
      ((exportDocument recs).getLast? = some "All core sections completed." ↔
        (hasKey recs "organization" && hasKey recs "grant_info" &&
         hasKey recs "eligibility" && hasKey recs "project") = true) := by
  constructor
  · rfl
  · intro recs
    have hlast : (exportDocument recs).getLast? = some (summaryLine recs) := rfl
    rw [hlast]
    unfold summaryLine missingLabels
    cases h1 : hasKey recs "organization" <;> cases h2 : hasKey recs "grant_info" <;>
      cases h3 : hasKey recs "eligibility" <;> cases h4 : hasKey recs "project" <;>
      simp [h1, h2, h3, h4, joinWith]

/-- C5: when the backend response text contains none of the recognised
verification markers, the interpretation returns the fail-closed default
verdict: not verified, with high confidence. -/
theorem interpret_fail_closed (text : String)
    (h : ∀ m ∈ recognizedMarkers, strContains text m.1 = false) :
    interpretVerificationResponse text =
      ⟨false, Confidence.high, "no recognized verification marker"⟩ := by
  unfold interpretVerificationResponse
  have hnone : recognizedMarkers.find? (fun m => strContains text m.1) = none := by
    rw [List.find?_eq_none]
    intro m hm
    simp [h m hm]
  rw [hnone]

/-- C5 witness: a concrete response without any recognised marker. -/
theorem interpret_fail_closed_witness :
    (∀ m ∈ recognizedMarkers, strContains "The organization looks fine." m.1 = false)
  ∧ interpretVerificationResponse "The organization looks fine." =
      ⟨false, Confidence.high, "no recognized verification marker"⟩ :=
  ⟨by decide, interpret_fail_closed "The organization looks fine." (by decide)⟩

/-- C6: the constructor of the seven step workflow builds a state
without the agent_results key, so the store performed by the Verify
Organization handler looks up a missing key and fails (a KeyError) for
every step index and every agent result. -/
theorem agent_results_key_missing (step : Int) (result : PyVal) :
    dictGet initWorkflowState "agent_results" = none ∧
    storeAgentResult initWorkflowState step result = none :=
  ⟨rfl, rfl⟩

/-- C7 counterexample: a submission with every required field non-empty
whose location fails the Canada check is not stored and reports no
success, refuting the claim that presence of the required fields alone
guarantees a stored record and success. -/
theorem submit_canada_gate_cex :
    requiredFieldsPresent nonCanadaForm = true
  ∧ (submitOrgStep simpleInit nonCanadaForm).1 ≠ SubmitOutcome.success
  ∧ (submitOrgStep simpleInit nonCanadaForm).2 = simpleInit := by
  refine ⟨rfl, ?_, rfl⟩
  decide

/-- C7 (amended): the step 1 submit succeeds exactly when the required
fields are non-empty and the location passes the Canada check; it then
stores the organization record under its step name and leaves the
cursor alone. A submission with an empty required field is silently
ignored (no message names the missing fields) and a submission failing
the Canada check reports the location error; in both failure cases the
session is unchanged. -/
theorem submit_org_characterization (s : SimpleSession) (f : OrgForm) :
    (submitOrgStep s f).1 = (if requiredFieldsPresent f = true then
                               (if canadaCheck f.org_location = true then SubmitOutcome.success
                                else SubmitOutcome.canadaError)
                             else SubmitOutcome.ignored)
  ∧ (submitOrgStep s f).2 =
      (if requiredFieldsPresent f = true ∧ canadaCheck f.org_location = true then
         { s with workflow_data := dictSet s.workflow_data "organization" (orgRecord f) }
       else s) := by
  dsimp only [submitOrgStep]
  split_ifs <;> simp_all

/-- C8: the Previous Step transition decrements the cursor by 1 with a
floor at 1 and leaves every stored record untouched. -/
theorem retreat_floor (s : SimpleSession) (h : 1 ≤ s.current_step) :
    (applyOp Op.prevStep s).current_step = max 1 (s.current_step - 1) ∧
    (applyOp Op.prevStep s).workflow_data = s.workflow_data := by
  obtain ⟨c, d⟩ := s
  have h : 1 ≤ c := h
  dsimp only [applyOp]
  split_ifs with e
  · exact ⟨by dsimp only; omega, rfl⟩
  · exact ⟨by dsimp only; omega, rfl⟩

/-- C8 witness: retreat from cursor 3. -/
theorem retreat_floor_witness :
    (applyOp Op.prevStep (⟨3, []⟩ : SimpleSession)).current_step =
      max 1 ((⟨3, []⟩ : SimpleSession).current_step - 1) ∧
    (applyOp Op.prevStep (⟨3, []⟩ : SimpleSession)).workflow_data =
      (⟨3, []⟩ : SimpleSession).workflow_data :=
  retreat_floor ⟨3, []⟩ (by decide)

/-- C9: from every state reached by a sequence of user actions in which
retreat is applicable (cursor above 1), retreating and then advancing
with nothing in between restores the original cursor and leaves the
record store unchanged. -/
theorem retreat_advance_roundtrip (ops : List Op) (h : 1 < (runOps ops).current_step) :
    applyOp Op.nextStep (applyOp Op.prevStep (runOps ops)) = runOps ops :=
  roundtrip_of_inv (runOps ops) (runOps_inv ops) h

/-- C9 witness: a run reaching step 2 with the organization stored. -/
theorem retreat_advance_roundtrip_witness :
    1 < (runOps roundtripOps).current_step ∧
    applyOp Op.nextStep (applyOp Op.prevStep (runOps roundtripOps)) = runOps roundtripOps :=
  ⟨by decide, retreat_advance_roundtrip roundtripOps (by decide)⟩

/-- C10 counterexample: the seven step app has exactly 7 workflow steps,
refuting the claim that the step count is 4 or 5 in every variant. -/
theorem step_count_cex :
    workflow_steps.length = 7 ∧ ¬(workflow_steps.length = 4 ∨ workflow_steps.length = 5) := by
  decide

/-- C10 (amended): the simple variant has 5 named steps and its cursor
never exceeds 5 (the export is offered within step 5); the full variant
has 7 named steps and completes exactly when its zero based cursor
reaches 7 (step count N, i.e. step N+1 in one based counting), where
the report download is offered. -/
theorem step_count_and_exit :
    STEPS.length = 5 ∧ workflow_steps.length = 7 ∧
    (∀ cs : Nat, fullCompleted cs = decide (7 ≤ cs)) ∧
    (∀ ops : List Op, (runOps ops).current_step ≤ 5) :=
  ⟨rfl, rfl, fun _ => rfl, fun ops => (runOps_inv ops).2.1⟩

end GrantResearch
